import Mathlib

/-!
Verification development for the Revalix property-intelligence scripts
(`app.py`, two concatenated variants: variant 1 = lines 1-494, variant 2 =
lines 495-743).

Modelling conventions:
* Python values flowing through the pipeline are either `None` or strings;
  we model them as `Option String` (`none` = Python `None`).  Numeric JSON
  leaves (latitude, longitude) are modelled as their string forms; only
  their truthiness matters to the merge logic.
* Python dictionaries are modelled as insertion-ordered association lists
  `List (String × Option String)`; `dget` models `d[k]` presence lookup and
  `pget` models `d.get(k)` (absent collapses to `None`).
* External effects (OpenAI completions, the ATTOM HTTP response, the
  Selenium scrape, `json.loads`) are supplied as explicit oracle inputs.
* Character classes (`\s`, `\w`, `str.strip`, `str.lower`) are modelled over
  ASCII, which covers every string the scripts themselves construct.
-/

set_option autoImplicit false

namespace Revalix

/-- Python truthiness restricted to the `None`-or-string values the scripts
pass around: `None` and `""` are falsy, all other strings truthy. -/
def truthy : Option String → Bool
  | none => false
  | some s => s ≠ ""

/-- Python `a or b` on `None`-or-string values. -/
def pOr (a b : Option String) : Option String :=
  if truthy a then a else b

@[simp] theorem truthy_none : truthy none = false := rfl

@[simp] theorem pOr_none_left (b : Option String) : pOr none b = b := rfl

theorem pOr_self (a : Option String) : pOr a a = a := by
  unfold pOr; split <;> rfl

theorem pOr_of_truthy {a : Option String} (h : truthy a = true) (b : Option String) :
    pOr a b = a := by
  unfold pOr; simp [h]

theorem pOr_of_falsy {a : Option String} (h : truthy a = false) (b : Option String) :
    pOr a b = b := by
  unfold pOr; simp [h]

theorem pOr_assoc (a b c : Option String) : pOr (pOr a b) c = pOr a (pOr b c) := by
  unfold pOr
  by_cases ha : truthy a = true <;> by_cases hb : truthy b = true <;>
    simp [ha, hb]

/-- A Python dict with string keys, as an insertion-ordered association
list. -/
abbrev PyMap (α : Type) := List (String × α)

/-- A Python dict whose values are `None`-or-string. -/
abbrev PyDict := PyMap (Option String)

/-- Models `k in d` together with `d[k]`: `some v` when the key is present,
`none` when the key is absent. -/
def dget {α : Type} (d : PyMap α) (k : String) : Option α :=
  (d.find? (fun p => p.1 == k)).map (·.2)

/-- Models `d.get(k)` (default `None`) on a `None`-or-string dict: absent
keys collapse to `None`. -/
def pget (d : PyDict) (k : String) : Option String :=
  match dget d k with
  | some v => v
  | none => none

/-- Models `d.get(k, dflt)`. -/
def pgetOr (d : PyDict) (k : String) (dflt : Option String) : Option String :=
  match dget d k with
  | some v => v
  | none => dflt

/-- Models Python dict assignment `d[k] = v`: overwrite in place when the
key is present, append otherwise (CPython dicts keep insertion order). -/
def pyUpd {α : Type} (d : PyMap α) (k : String) (v : α) : PyMap α :=
  match d with
  | [] => [(k, v)]
  | p :: rest => if p.1 = k then (k, v) :: rest else p :: pyUpd rest k v

theorem dget_pyUpd {α : Type} (d : PyMap α) (k k' : String) (v : α) :
    dget (pyUpd d k v) k' = if k = k' then some v else dget d k' := by
  induction d with
  | nil =>
    by_cases hk : k = k'
    · simp [pyUpd, dget, List.find?, hk]
    · have hkb : (k == k') = false := beq_eq_false_iff_ne.mpr hk
      simp [pyUpd, dget, List.find?, hkb, hk]
  | cons p rest ih =>
    by_cases hp : p.1 = k
    · by_cases hk : k = k'
      · subst hk
        have hkb : (k == k) = true := beq_iff_eq.mpr rfl
        simp [pyUpd, dget, List.find?, hp, hkb]
      · have hkb : (k == k') = false := beq_eq_false_iff_ne.mpr hk
        have hpq : (p.1 == k') = false := beq_eq_false_iff_ne.mpr (hp ▸ hk)
        simp [pyUpd, dget, List.find?, hp, hkb, hk, hpq]
    · by_cases hq : p.1 = k'
      · have hqb : (p.1 == k') = true := beq_iff_eq.mpr hq
        have hkk : ¬ k = k' := fun h => hp (h ▸ hq)
        simp [pyUpd, dget, List.find?, hp, hqb, hkk]
      · have hqb : (p.1 == k') = false := beq_eq_false_iff_ne.mpr hq
        simp only [pyUpd, hp, if_false]
        have h1 : dget (p :: pyUpd rest k v) k' = dget (pyUpd rest k v) k' := by
          simp [dget, List.find?, hqb]
        have h2 : dget (p :: rest) k' = dget rest k' := by
          simp [dget, List.find?, hqb]
        rw [h1, ih, h2]

/-! ## Python string primitives

`str.strip`, `str.lower`, `str.split` and friends are modelled directly
over character lists (ASCII whitespace and case). -/

/-- Python `\s` over ASCII. -/
def isPyWs (c : Char) : Bool :=
  c = ' ' || c = '\t' || c = '\n' || c = '\r' || c = Char.ofNat 11 || c = Char.ofNat 12

/-- Split at every character satisfying `p` (separators dropped, adjacent
separators produce empty pieces) — the behaviour of `str.split(sep)` for a
one-character separator. -/
def splitByPred (p : Char → Bool) : List Char → List (List Char)
  | [] => [[]]
  | c :: rest =>
    if p c then [] :: splitByPred p rest
    else
      match splitByPred p rest with
      | piece :: pieces => (c :: piece) :: pieces
      | [] => [[c]]

/-- Join pieces with a separator character (inverse of `splitByPred`). -/
def joinWith (sep : Char) : List (List Char) → List Char
  | [] => []
  | [piece] => piece
  | piece :: rest => piece ++ sep :: joinWith sep rest

/-- Python `str.strip()` over ASCII whitespace. -/
def trimChars (cs : List Char) : List Char :=
  ((cs.dropWhile isPyWs).reverse.dropWhile isPyWs).reverse

def pyStrip (s : String) : String := String.mk (trimChars s.toList)

/-- Python `str.lower()` over ASCII. -/
def pyLower (s : String) : String := String.mk (s.toList.map Char.toLower)

/-! ## Brace-delimited JSON extraction (`extract_json_safe`, both variants)

`re.search` of the DOTALL pattern "open brace, any characters, close brace"
tries each start position left to right; at a position it matches exactly
when the character there is an opening brace with some closing brace
strictly later, and greediness extends the match to the last closing brace
of the whole string.  `json.loads` is an external library function and is
supplied as an oracle `loads : String → Option PyDict` (`none` models a
raised `JSONDecodeError`; a successful parse of a brace-led document is an
object, i.e. a dict). -/

def lbrace : Char := Char.ofNat 123

def rbrace : Char := Char.ofNat 125

/-- The segment of `cs` up to and including the last occurrence of `t`
(empty when `t` does not occur). -/
def takeToLast (t : Char) (cs : List Char) : List Char :=
  (cs.reverse.dropWhile (fun c => c ≠ t)).reverse

/-- Left-to-right scan of the regex engine: at each position, match iff the
character is an opening brace with a closing brace strictly later; the
greedy match runs to the last closing brace. -/
def braceSpanAux : List Char → Option (List Char)
  | [] => none
  | c :: rest =>
    if c = lbrace ∧ rest.contains rbrace then some (c :: takeToLast rbrace rest)
    else braceSpanAux rest

/-- Models `re.search(r"\x7b.*\x7d", text, re.S)`, returning the matched
substring. -/
def braceSpan (s : String) : Option String :=
  (braceSpanAux s.toList).map (fun cs => String.mk cs)

/-- Closed form: the span runs from the first opening brace to the last
closing brace, provided a closing brace occurs after the first opening
brace. -/
def braceSpanFirstLast (cs : List Char) : Option (List Char) :=
  match cs.dropWhile (fun c => c ≠ lbrace) with
  | [] => none
  | c :: rest =>
    if rest.contains rbrace then some (c :: takeToLast rbrace rest) else none

theorem braceSpanAux_nil_of_not_contains {cs : List Char}
    (h : cs.contains rbrace = false) : braceSpanAux cs = none := by
  induction cs with
  | nil => rfl
  | cons c rest ih =>
    have hc : rest.contains rbrace = false := by
      by_cases hr : rest.contains rbrace = true
      · exfalso
        have : (c :: rest).contains rbrace = true := by
          simp [List.contains_cons] at hr ⊢
          exact Or.inr (by simpa using hr)
        rw [this] at h; exact Bool.noConfusion h
      · simpa using hr
    unfold braceSpanAux
    have : ¬ (c = lbrace ∧ rest.contains rbrace) := by
      intro ⟨_, h2⟩
      rw [hc] at h2; exact Bool.noConfusion h2
    rw [if_neg this]
    exact ih hc

theorem braceSpanAux_cons (c : Char) (rest : List Char) :
    braceSpanAux (c :: rest) =
      if c = lbrace ∧ rest.contains rbrace then some (c :: takeToLast rbrace rest)
      else braceSpanAux rest := rfl

theorem firstLast_of_dropWhile_cons {cs : List Char} {c : Char} {rest : List Char}
    (h : cs.dropWhile (fun c => decide (c ≠ lbrace)) = c :: rest) :
    braceSpanFirstLast cs =
      if rest.contains rbrace then some (c :: takeToLast rbrace rest) else none := by
  unfold braceSpanFirstLast
  rw [h]

theorem firstLast_of_dropWhile_nil {cs : List Char}
    (h : cs.dropWhile (fun c => decide (c ≠ lbrace)) = []) :
    braceSpanFirstLast cs = none := by
  unfold braceSpanFirstLast
  rw [h]

theorem braceSpanAux_eq_firstLast : ∀ cs : List Char,
    braceSpanAux cs = braceSpanFirstLast cs := by
  intro cs
  induction cs with
  | nil => rfl
  | cons c rest ih =>
    rw [braceSpanAux_cons]
    by_cases hcl : c = lbrace
    · subst hcl
      have hdw : List.dropWhile (fun c => decide (c ≠ lbrace)) (lbrace :: rest)
          = lbrace :: rest := by
        simp [List.dropWhile_cons]
      rw [firstLast_of_dropWhile_cons hdw]
      by_cases hr : rest.contains rbrace = true
      · rw [if_pos ⟨rfl, hr⟩, if_pos hr]
      · have hr' : rest.contains rbrace = false := by simpa using hr
        rw [if_neg (by intro h2; rw [hr'] at h2; exact Bool.noConfusion h2.2),
          if_neg hr]
        exact braceSpanAux_nil_of_not_contains hr'
    · have hdw : List.dropWhile (fun c => decide (c ≠ lbrace)) (c :: rest)
          = List.dropWhile (fun c => decide (c ≠ lbrace)) rest := by
        simp [List.dropWhile_cons, hcl]
      rw [if_neg (by intro h2; exact hcl h2.1)]
      rw [ih]
      unfold braceSpanFirstLast
      rw [hdw]

/-- Models Python truthiness of `fallback or` followed by an empty dict
literal: `None` and the empty dict are falsy. -/
def fallbackOrEmpty (fallback : Option PyDict) : PyDict :=
  match fallback with
  | none => []
  | some d => if d.isEmpty then [] else d

/-- Variant 1 `extract_json_safe` (lines 56-67): extract the first
brace-delimited span, try to parse it, and fall back on any failure. -/
def extract_json_safe (loads : String → Option PyDict) (text : String)
    (fallback : Option PyDict) : PyDict :=
  match braceSpan text with
  | some m =>
    match loads m with
    | some j => j
    | none => fallbackOrEmpty fallback
  | none => fallbackOrEmpty fallback

/-- Variant 2 `extract_json_safe` (lines 534-541): no fallback parameter,
the empty dict on every failure. -/
def extractJsonSafeV2 (loads : String → Option PyDict) (text : String) : PyDict :=
  match braceSpan text with
  | some m =>
    match loads m with
    | some j => j
    | none => []
  | none => []

/-- Variant 1 `normalize_address` (lines 70-83), with the model completion
text supplied as the oracle `modelOut`. -/
def normalize_address (loads : String → Option PyDict) (modelOut : String)
    (address : String) : Option String :=
  let data := extract_json_safe loads modelOut (some [("corrected_address", some address)])
  pgetOr data "corrected_address" (some address)

/-- Variant 2 `normalize_address` (lines 545-555). -/
def normalizeAddressV2 (loads : String → Option PyDict) (modelOut : String)
    (address : String) : Option String :=
  let data := extractJsonSafeV2 loads modelOut
  pgetOr data "corrected_address" (some address)

/-- `ai_fill_missing` (lines 302-316): parse the model output, then keep
only the requested keys (absent keys become `None`). -/
def ai_fill_missing (loads : String → Option PyDict) (modelOut : String)
    (target_fields : List String) : PyDict :=
  let data := extract_json_safe loads modelOut (some [])
  target_fields.map (fun k => (k, pget data k))

/-! ## ZIP regex (`enforce_user_zip`)

`\b\d{5}\b` over ASCII: five digits with a non-word character (or a string
end) on each side; `\w` is modelled as ASCII alphanumeric or underscore. -/

def isWordChar (c : Char) : Bool := c.isAlphanum || c = '_'

/-- No word character precedes the scan position (string start counts as a
boundary). -/
def boundaryBefore : Option Char → Bool
  | none => true
  | some p => !(isWordChar p)

/-- A word boundary follows the five digits. -/
def boundaryAfter : List Char → Bool
  | [] => true
  | c :: _ => !(isWordChar c)

/-- The pattern matches at the current position. -/
def zipOk (prev : Option Char) (d1 d2 d3 d4 d5 : Char) (rest : List Char) : Bool :=
  boundaryBefore prev && d1.isDigit && d2.isDigit && d3.isDigit && d4.isDigit &&
    d5.isDigit && boundaryAfter rest

/-- `re.findall(r"\b\d\x7b5\x7d\b", s)`: left-to-right scan collecting
non-overlapping matches, resuming after each match. -/
def findZipsAux : Option Char → List Char → List String
  | _, [] => []
  | prev, d1 :: d2 :: d3 :: d4 :: d5 :: rest5 =>
    if zipOk prev d1 d2 d3 d4 d5 rest5 then
      String.mk [d1, d2, d3, d4, d5] :: findZipsAux (some d5) rest5
    else
      findZipsAux (some d1) (d2 :: d3 :: d4 :: d5 :: rest5)
  | _prev, c :: rest => findZipsAux (some c) rest

def findZips (s : String) : List String := findZipsAux none s.toList

/-- `re.sub(r"\b\d\x7b5\x7d\b", repl, s, count=1)`: replace the first match
only, leave the string unchanged when there is none. -/
def subZipAux : Option Char → List Char → List Char → List Char
  | _, [], _ => []
  | prev, d1 :: d2 :: d3 :: d4 :: d5 :: rest5, repl =>
    if zipOk prev d1 d2 d3 d4 d5 rest5 then repl ++ rest5
    else d1 :: subZipAux (some d1) (d2 :: d3 :: d4 :: d5 :: rest5) repl
  | _prev, c :: rest, repl => c :: subZipAux (some c) rest repl

def subFirstZip (s : String) (repl : String) : String :=
  String.mk (subZipAux none s.toList repl.toList)

/-- Decomposition of a string at its first `\b\d\x7b5\x7d\b` match:
(text before, the five digits, text after). -/
def firstZipCutAux : Option Char → List Char →
    Option (List Char × List Char × List Char)
  | _, [] => none
  | prev, d1 :: d2 :: d3 :: d4 :: d5 :: rest5 =>
    if zipOk prev d1 d2 d3 d4 d5 rest5 then some ([], [d1, d2, d3, d4, d5], rest5)
    else (firstZipCutAux (some d1) (d2 :: d3 :: d4 :: d5 :: rest5)).map
      (fun p => (d1 :: p.1, p.2.1, p.2.2))
  | _prev, c :: rest =>
    (firstZipCutAux (some c) rest).map (fun p => (c :: p.1, p.2.1, p.2.2))

def firstZipCut (s : String) : Option (String × String × String) :=
  (firstZipCutAux none s.toList).map
    (fun p => (String.mk p.1, String.mk p.2.1, String.mk p.2.2))

/-- `enforce_user_zip` (lines 86-95): keep the user's typed ZIP when both
strings carry one and they differ (the `st.warning` UI call is dropped). -/
def enforce_user_zip (original : String) (corrected : Option String) :
    Option String :=
  let origZip := findZips original
  let corrZip := findZips (corrected.getD "")
  if origZip ≠ [] ∧ corrZip ≠ [] ∧ origZip.head? ≠ corrZip.head? then
    match corrected with
    | some s => some (subFirstZip s (origZip.headD ""))
    | none => none
  else corrected

/-- The facts tying the three ZIP-regex functions together: when the cut is
empty there is no match (findall empty, sub a no-op); when it produces
`(before, match, after)`, the first findall hit is `match`, replacement
splices at that point, and the three pieces reassemble the input. -/
def EngineP (prev : Option Char) (cs : List Char) : Prop :=
  (firstZipCutAux prev cs = none →
    (findZipsAux prev cs = [] ∧ ∀ repl, subZipAux prev cs repl = cs))
  ∧ (∀ b m a, firstZipCutAux prev cs = some (b, m, a) →
      ((findZipsAux prev cs).head? = some (String.mk m)
        ∧ (∀ repl, subZipAux prev cs repl = b ++ repl ++ a)
        ∧ cs = b ++ m ++ a))

theorem engineStep (prev : Option Char) (c : Char) (rest : List Char)
    (hcut : firstZipCutAux prev (c :: rest)
      = (firstZipCutAux (some c) rest).map (fun p => (c :: p.1, p.2.1, p.2.2)))
    (hfind : findZipsAux prev (c :: rest) = findZipsAux (some c) rest)
    (hsub : ∀ repl, subZipAux prev (c :: rest) repl
      = c :: subZipAux (some c) rest repl)
    (ih : EngineP (some c) rest) : EngineP prev (c :: rest) := by
  constructor
  · intro h
    rw [hcut, Option.map_eq_none'] at h
    obtain ⟨h1, h2⟩ := ih.1 h
    exact ⟨by rw [hfind, h1], fun repl => by rw [hsub repl, h2]⟩
  · intro b m a h
    rw [hcut] at h
    cases h' : firstZipCutAux (some c) rest with
    | none => rw [h'] at h; exact Option.noConfusion h
    | some p =>
      obtain ⟨b', m', a'⟩ := p
      rw [h'] at h
      simp only [Option.map_some', Option.some.injEq, Prod.mk.injEq] at h
      obtain ⟨hb, hm, ha⟩ := h
      obtain ⟨ih1, ih2, ih3⟩ := ih.2 b' m' a' h'
      subst hb; subst hm; subst ha
      refine ⟨by rw [hfind]; exact ih1, fun repl => ?_, ?_⟩
      · rw [hsub repl, ih2 repl]; simp
      · simp only [List.cons_append]; rw [← ih3]

theorem zipEngine (prev : Option Char) (cs : List Char) : EngineP prev cs := by
  induction prev, cs using firstZipCutAux.induct with
  | case1 prev =>
    exact ⟨fun _ => ⟨rfl, fun _ => rfl⟩, fun b m a h => Option.noConfusion h⟩
  | case2 prev d1 d2 d3 d4 d5 rest5 hok =>
    constructor
    · intro h
      rw [show firstZipCutAux prev (d1 :: d2 :: d3 :: d4 :: d5 :: rest5)
          = some ([], [d1, d2, d3, d4, d5], rest5) by
        simp only [firstZipCutAux, if_pos hok]] at h
      exact Option.noConfusion h
    · intro b m a h
      rw [show firstZipCutAux prev (d1 :: d2 :: d3 :: d4 :: d5 :: rest5)
          = some ([], [d1, d2, d3, d4, d5], rest5) by
        simp only [firstZipCutAux, if_pos hok]] at h
      simp only [Option.some.injEq, Prod.mk.injEq] at h
      obtain ⟨hb, hm, ha⟩ := h
      subst hb; subst hm; subst ha
      refine ⟨?_, fun repl => ?_, by simp⟩
      · simp only [findZipsAux, if_pos hok, List.head?]
      · simp only [subZipAux, if_pos hok]; simp
  | case3 prev d1 d2 d3 d4 d5 rest5 hok ih =>
    refine engineStep prev d1 (d2 :: d3 :: d4 :: d5 :: rest5) ?_ ?_ ?_ ih
    · simp only [firstZipCutAux, if_neg hok]
    · simp only [findZipsAux, if_neg hok]
    · intro repl; simp only [subZipAux, if_neg hok]
  | case4 prev c rest hshape ih =>
    match rest with
    | r1 :: r2 :: r3 :: r4 :: rest5 => exact absurd rfl (hshape r1 r2 r3 r4 rest5)
    | [] => exact engineStep prev c [] rfl rfl (fun _ => rfl) ih
    | [r1] => exact engineStep prev c [r1] rfl rfl (fun _ => rfl) ih
    | [r1, r2] => exact engineStep prev c [r1, r2] rfl rfl (fun _ => rfl) ih
    | [r1, r2, r3] => exact engineStep prev c [r1, r2, r3] rfl rfl (fun _ => rfl) ih

/-! ## ATTOM fetch (`fetch_attom`, both variants)

The HTTP exchange is an oracle: `status` is the response status code and
`body` models `r.json()` — `none` when the body is not valid JSON (so that
`r.json()` raises), `some recs` when it decodes with `recs` the value of its
"property" key (absent key collapses to `[]`).  A property record is
flattened to the leaves the code reads. -/

structure PropRec where
  apn : Option String
  line1 : Option String
  locality : Option String
  countrySecSubd : Option String
  countrySubd : Option String
  postal1 : Option String
  country : Option String
  latitude : Option String
  longitude : Option String
  propSubType : Option String
  propType : Option String
  owner1name : Option String
deriving DecidableEq

structure HttpResp where
  status : Nat
  body : Option (List PropRec)
deriving DecidableEq

/-- Python exceptions that can escape the modelled fragments. -/
inductive PyErr
  | jsonDecode
  | scrapeFail (msg : String)
  | keyErr (k : String)
deriving DecidableEq, Repr

/-- The three unpacking statements of `fetch_attom`: `address.split(",", 1)`,
`rest.rsplit(",", 1)`, and `st_zip.strip().split()` which must yield exactly
two whitespace-separated tokens.  Returns `none` when any of them raises. -/
def splitAddr (address : String) : Option (String × String × String × String) :=
  match splitByPred (fun c => c = ',') address.toList with
  | [] => none
  | [_] => none
  | s :: restParts =>
    let street := s
    let rest := joinWith ',' restParts
    match splitByPred (fun c => c = ',') rest with
    | [] => none
    | [_] => none
    | parts =>
      let city := joinWith ',' parts.dropLast
      let stZip := parts.getLastD []
      match (splitByPred isPyWs (trimChars stZip)).filter (fun t => t ≠ []) with
      | [state, zipcode] =>
        some (String.mk street, String.mk city, String.mk state, String.mk zipcode)
      | _ => none

/-- Variant 1 `fetch_attom` (lines 98-138).  The `try/except Exception`
around the unpacking returns the empty dict on any split failure; a non-200
status returns the empty dict before `r.json()` is reached; an undecodable
body makes `r.json()` raise. -/
def fetch_attom (address : Option String) (resp : HttpResp) :
    Except PyErr PyDict :=
  match address.bind splitAddr with
  | none => .ok []
  | some _ =>
    if resp.status ≠ 200 then .ok []
    else
      match resp.body with
      | none => .error .jsonDecode
      | some [] => .ok []
      | some (p :: _) =>
        .ok [("apn", p.apn), ("street_name", p.line1), ("city", p.locality),
          ("county", p.countrySecSubd), ("state", p.countrySubd),
          ("zipcode", p.postal1), ("country", p.country),
          ("latitude", p.latitude), ("longitude", p.longitude),
          ("property_type", p.propSubType), ("property_sub_type", p.propType),
          ("owner_name", p.owner1name)]

/-- Variant 2 `fetch_attom` (lines 559-587): same split guard, but no status
check and no timeout — `r.json()` runs on every response, raising whenever
the body is not JSON. -/
def fetchAttomV2 (address : Option String) (resp : HttpResp) :
    Except PyErr PyDict :=
  match address.bind splitAddr with
  | none => .ok []
  | some _ =>
    match resp.body with
    | none => .error .jsonDecode
    | some [] => .ok []
    | some (p :: _) =>
      .ok [("apn", p.apn), ("street", p.line1), ("city", p.locality),
        ("county", p.countrySecSubd), ("state", p.countrySubd),
        ("zip", p.postal1), ("lat", p.latitude), ("lon", p.longitude),
        ("property_type", p.propSubType), ("property_subtype", p.propType)]

/-! ## Markdown tables (`markdown_table_to_df`, variant 1)

`pd.read_csv(StringIO(text), sep="|", engine="python", header=0)` is
modelled for the unquoted inputs markdown tables produce: each line is split
on the pipe character; the first line names the columns (an empty header
field becomes "Unnamed: i", duplicate names are mangled with ".k"); empty
data fields become NaN (`none`), short rows are NaN-padded, and a row wider
than the header makes the python engine raise — which `markdown_table_to_df`
catches, returning `None`. -/

abbrev Cell := Option String

structure DF where
  cols : List String
  rows : List (List Cell)
deriving DecidableEq, Repr

/-- pandas naming of a header field: empty fields become "Unnamed: i". -/
def headerName (i : Nat) (raw : String) : String :=
  if raw = "" then "Unnamed: " ++ toString i else raw

/-- pandas mangling of duplicate column names: the k-th repetition of a name
gets the suffix ".k". -/
def mangleAux : List String → List String → List String
  | _, [] => []
  | seen, n :: rest =>
    let cnt := seen.count n
    (if cnt = 0 then n else n ++ "." ++ toString cnt) :: mangleAux (n :: seen) rest

/-- One data line: empty fields are NaN, short rows are NaN-padded, and a
row wider than the header is a parse error. -/
def rowCells (fields : List String) (width : Nat) : Option (List Cell) :=
  if fields.length > width then none
  else some ((fields.map (fun f => if f = "" then (none : Cell) else some f))
    ++ List.replicate (width - fields.length) none)

def readCsvPipe (lines : List String) : Option DF :=
  match lines with
  | [] => none
  | header :: dataLines =>
    let names := mangleAux []
      (((splitByPred (fun c => c = '|') header.toList).map String.mk).enum.map
        (fun p => headerName p.1 p.2))
    (dataLines.mapM (fun ln =>
        rowCells ((splitByPred (fun c => c = '|') ln.toList).map String.mk)
          names.length)).map
      (fun rows => ⟨names, rows⟩)

/-- `df.dropna(axis=1, how="all")`: keep the columns with at least one
non-NaN value. -/
def dropAllNaCols (df : DF) : DF :=
  let ks := (List.range df.cols.length).filter
    (fun i => df.rows.any (fun r => (r.getD i none).isSome))
  ⟨ks.map (fun i => df.cols.getD i ""), df.rows.map (fun r => ks.map (fun i => r.getD i none))⟩

/-- Strip whitespace from headers and from every non-NaN cell. -/
def stripDF (df : DF) : DF :=
  ⟨df.cols.map pyStrip,
    df.rows.map (fun r => r.map (fun cell => cell.map pyStrip))⟩

/-- `str(v)` on a cell: NaN prints as "nan". -/
def cellStr : Cell → String
  | none => "nan"
  | some s => s

/-- `re.match` of optional whitespace, three or more dashes, optional
whitespace. -/
def isDashRun (s : String) : Bool :=
  let t := trimChars s.toList
  3 ≤ t.length && t.all (fun c => c = '-')

/-- Remove the markdown separator row when the first data row is all
dashes. -/
def dropSepRow (df : DF) : DF :=
  match df.rows with
  | r :: rest => if r.all (fun v => isDashRun (cellStr v)) then ⟨df.cols, rest⟩ else df
  | [] => df

/-- `markdown_table_to_df` (lines 233-258). -/
def markdown_table_to_df (md : String) : Option DF :=
  if md.toList.contains '|' = false then none
  else
    let lines := ((splitByPred (fun c => c = '\n') (trimChars md.toList)).map
      trimChars).filter (fun l => l ≠ [])
    if lines.length < 2 then none
    else (readCsvPipe (lines.map String.mk)).map
      (fun df => dropSepRow (stripDF (dropAllNaCols df)))

/-! ## Section parsing (`parse_structured_sections`, variant 1) -/

/-- The two characters after the leading '#' are another '#' followed by
whitespace. -/
def headerAt : List Char → Bool
  | c2 :: c3 :: _ => c2 = '#' && isPyWs c3
  | _ => false

theorem length_dropWhile_le' (p : Char → Bool) (l : List Char) :
    (l.dropWhile p).length ≤ l.length := by
  induction l with
  | nil => simp
  | cons a t ih =>
    rw [List.dropWhile_cons]
    split
    · exact Nat.le_succ_of_le ih
    · simp

/-- `re.split(r"^##\s+", md, flags=re.MULTILINE)`: scan left to right; a
match needs line start (string start or a preceding newline), then "##",
then a maximal nonempty whitespace run.  The scan consumes at least one
character per step, so it is driven by a fuel counter exceeding the input
length (structural recursion that the kernel can evaluate). -/
def splitSecAux : Nat → Bool → List Char → List Char → List (List Char)
  | _, _, acc, [] => [acc.reverse]
  | 0, _, acc, _ => [acc.reverse]
  | Nat.succ n, atStart, acc, c :: rest =>
    if atStart && (c = '#') && headerAt rest then
      acc.reverse :: splitSecAux n
        ((rest.tail.takeWhile isPyWs).getLast? = some '\n') []
        (rest.tail.dropWhile isPyWs)
    else
      splitSecAux n (c = '\n') (c :: acc) rest

def splitSections (md : String) : List String :=
  (splitSecAux (md.toList.length + 1) true [] md.toList).map String.mk

/-- `df.rename(columns=...)` with the dict literal mapping the first column
name to "Field" and the last to "Value"; when the two names coincide the
dict literal collapses to the "Value" entry alone. -/
def renameCol (fieldCol valueCol c : String) : String :=
  if fieldCol ≠ valueCol ∧ c = fieldCol then "Field"
  else if c = valueCol then "Value" else c

/-- `df[["Field", "Value"]]`: all columns labelled "Field" (in frame
order), then all labelled "Value"; a missing label raises `KeyError`. -/
def selectFV (df : DF) : Except PyErr DF :=
  let idxF := (List.range df.cols.length).filter (fun i => df.cols.getD i "" = "Field")
  let idxV := (List.range df.cols.length).filter (fun i => df.cols.getD i "" = "Value")
  if idxF.isEmpty then .error (.keyErr "Field")
  else if idxV.isEmpty then .error (.keyErr "Value")
  else
    let idxs := idxF ++ idxV
    .ok ⟨idxs.map (fun i => df.cols.getD i ""),
      df.rows.map (fun r => idxs.map (fun i => r.getD i none))⟩

/-- `row[label]` on a frame row, modelled as the first column carrying the
label (pandas returns a sub-series when the label is duplicated; its string
rendering is not modelled). -/
def rowGet (df : DF) (r : List Cell) (label : String) : Cell :=
  match (List.range df.cols.length).find? (fun i => df.cols.getD i "" = label) with
  | some i => r.getD i none
  | none => none

/-- The `flat_kv` writes a section's frame performs, in row order:
`k = str(row["Field"]).strip()`, `v = str(row["Value"]).strip()` unless NaN,
keys equal to the empty string skipped. -/
def chunkPairs (df : DF) : List (String × Cell) :=
  (df.rows.map (fun r =>
    (pyStrip (cellStr (rowGet df r "Field")),
      match rowGet df r "Value" with
      | some s => some (pyStrip s)
      | none => (none : Cell)))).filter (fun p => p.1 ≠ "")

/-- `lines[0].strip()` of a chunk: the section name. -/
def sectionNameOf (chunk : String) : String :=
  String.mk (trimChars
    ((splitByPred (fun ch => ch = '\n') (trimChars chunk.toList)).headD []))

/-- `"\n".join(lines[1:]).strip()` of a chunk: the table text. -/
def tableMdOf (chunk : String) : String :=
  String.mk (trimChars
    (joinWith '\n' (splitByPred (fun ch => ch = '\n') (trimChars chunk.toList)).tail))

/-- One chunk of `parse_structured_sections`: `.ok none` when the chunk is
skipped (blank, unparseable table, or fewer than two columns). -/
def chunkEntry (chunk : String) : Except PyErr (Option (String × DF × List (String × Cell))) :=
  if trimChars chunk.toList = [] then .ok none
  else
    match markdown_table_to_df (tableMdOf chunk) with
    | none => .ok none
    | some df =>
      if df.cols.length < 2 then .ok none
      else
        match selectFV ⟨df.cols.map
            (renameCol (df.cols.headD "") (df.cols.getLastD "")), df.rows⟩ with
        | .error e => .error e
        | .ok df' => .ok (some (sectionNameOf chunk, df', chunkPairs df'))

/-- The chunk fold of `parse_structured_sections`: store each section frame
under its name, write each key/value pair into the flat map. -/
def parseChunks : PyMap DF × PyDict → List String → Except PyErr (PyMap DF × PyDict)
  | acc, [] => .ok acc
  | acc, chunk :: rest =>
    match chunkEntry chunk with
    | .error e => .error e
    | .ok none => parseChunks acc rest
    | .ok (some (name, df, ps)) =>
      parseChunks (pyUpd acc.1 name df, ps.foldl (fun m p => pyUpd m p.1 p.2) acc.2) rest

/-- `parse_structured_sections` (lines 261-298). -/
def parse_structured_sections (md : String) :
    Except PyErr (PyMap DF × PyDict) :=
  parseChunks ([], []) (splitSections md)

/-- The pairs a single chunk contributes ([] when skipped or failing). -/
def chunkPairsOf (c : String) : List (String × Cell) :=
  match chunkEntry c with
  | .ok (some (_, _, ps)) => ps
  | _ => []

/-- The key/value pairs of the whole document in document order. -/
def docPairs (md : String) : List (String × Cell) :=
  ((splitSections md).map chunkPairsOf).flatten

/-- `find?` distributes over append: the first hit of the left part wins. -/
theorem find?_append {α : Type} (l1 l2 : List α) (f : α → Bool) :
    (l1 ++ l2).find? f
      = match l1.find? f with
        | some x => some x
        | none => l2.find? f := by
  induction l1 with
  | nil => rfl
  | cons a t ih =>
    by_cases h : f a
    · simp [List.find?_cons, h]
    · simp [List.find?_cons, h, ih]

/-- The last write wins: looking up `k` after folding the writes `ps` over
`init` finds the value of the last pair with key `k`, else falls back to
`init`. -/
theorem dget_foldl_pyUpd (ps : List (String × Cell)) (init : PyDict) (k : String) :
    dget (ps.foldl (fun m p => pyUpd m p.1 p.2) init) k
      = match ps.reverse.find? (fun p => p.1 == k) with
        | some q => some q.2
        | none => dget init k := by
  induction ps generalizing init with
  | nil => rfl
  | cons p tl ih =>
    rw [List.foldl_cons, ih (pyUpd init p.1 p.2), List.reverse_cons,
      find?_append tl.reverse [p] (fun p => p.1 == k)]
    cases hq : tl.reverse.find? (fun p => p.1 == k) with
    | some q => rfl
    | none =>
      by_cases hp : p.1 = k
      · have hpb : (p.1 == k) = true := beq_iff_eq.mpr hp
        simp [List.find?_cons, hpb, dget_pyUpd, hp]
      · have hpb : (p.1 == k) = false := beq_eq_false_iff_ne.mpr hp
        simp [List.find?_cons, hpb, dget_pyUpd, hp]

/-- The flat map built by `parseChunks` is the fold of the chunks' pairs in
document order over the initial accumulator. -/
theorem parseChunks_flat (chunks : List String) (acc : PyMap DF × PyDict)
    (secs : PyMap DF) (flat : PyDict)
    (h : parseChunks acc chunks = .ok (secs, flat)) :
    flat = ((chunks.map chunkPairsOf).flatten).foldl
      (fun m p => pyUpd m p.1 p.2) acc.2 := by
  induction chunks generalizing acc with
  | nil =>
    unfold parseChunks at h
    simp only [Except.ok.injEq] at h
    subst h
    rfl
  | cons c tl ih =>
    unfold parseChunks at h
    cases hce : chunkEntry c with
    | error e =>
      rw [hce] at h
      exact absurd h (by simp)
    | ok o =>
      rw [hce] at h
      cases o with
      | none =>
        have hi := ih _ h
        simp [chunkPairsOf, hce, hi]
      | some trip =>
        obtain ⟨name, df, ps⟩ := trip
        have hi := ih _ h
        simp [chunkPairsOf, hce, hi, List.foldl_append]

/-- Every frame reachable in the sections accumulator after `parseChunks`
either was reachable before or was produced by some `chunkEntry`. -/
theorem parseChunks_secs (P : DF → Prop) (chunks : List String)
    (acc : PyMap DF × PyDict) (secs : PyMap DF) (flat : PyDict)
    (h : parseChunks acc chunks = .ok (secs, flat))
    (hacc : ∀ name df, dget acc.1 name = some df → P df)
    (hentry : ∀ c name df ps, chunkEntry c = .ok (some (name, df, ps)) → P df) :
    ∀ name df, dget secs name = some df → P df := by
  induction chunks generalizing acc with
  | nil =>
    unfold parseChunks at h
    simp only [Except.ok.injEq] at h
    intro name df hd
    exact hacc name df (by rw [h]; exact hd)
  | cons c tl ih =>
    unfold parseChunks at h
    cases hce : chunkEntry c with
    | error e =>
      rw [hce] at h
      exact absurd h (by simp)
    | ok o =>
      rw [hce] at h
      cases o with
      | none => exact ih _ h hacc
      | some trip =>
        obtain ⟨name', df', ps⟩ := trip
        refine ih _ h ?_
        intro name df hd
        rw [show (pyUpd acc.1 name' df',
            ps.foldl (fun m p => pyUpd m p.1 p.2) acc.2).1 = pyUpd acc.1 name' df'
          from rfl, dget_pyUpd] at hd
        by_cases hn : name' = name
        · rw [if_pos hn] at hd
          simp only [Option.some.injEq] at hd
          subst hd
          exact hentry c name' df' ps hce
        · rw [if_neg hn] at hd
          exact hacc name df hd

/-! ## Merge with priority (`build_identification` / `build_location`)

The `out` dicts have a fixed key set, so they are modelled as records with
one field per key; the AI-fill loop `for k in out: if not out[k]: out[k] =
ai.get(k)` is unrolled over the keys in insertion order (each step touches
one key, so the order is immaterial).  Note `if not out[k]: out[k] = g`
leaves the field at `out[k] or g`, which is exactly `pOr`. -/

def IDENTIFICATION_FIELDS : List String :=
  ["Property ID", "Property Name", "Owner Name",
    "Property Type", "Property Subtype",
    "Ownership Type", "Occupancy Status",
    "Building Code / Permit ID"]

def LOCATION_FIELDS : List String :=
  ["Address Line 1", "Street Name", "City", "County", "Township",
    "State", "Postal Code", "Latitude", "Longitude", "Facing Direction",
    "Neighborhood Type", "Landmark", "Legal Description", "Census Tract",
    "Market", "Submarket", "CBSA", "State Class Code", "Neighborhood Name",
    "Map Facet", "Key Map", "Tax District", "Tax Code", "Location Type"]

def ALL_FIELDS : List String := IDENTIFICATION_FIELDS ++ LOCATION_FIELDS

/-- `(d or \x7b\x7d).get(k)` for an optional dict. -/
def oget (d : Option PyDict) (k : String) : Option String :=
  match d with
  | some m => pget m k
  | none => none

/-- `k in (scraped or \x7b\x7d)`. -/
def inOpt (d : Option PyDict) (k : String) : Bool :=
  match d with
  | some m => (dget m k).isSome
  | none => false

/-- The `pick` helper of `build_identification`: first candidate key that is
present with a truthy value. -/
def pick (scraped : Option PyDict) : List String → Option String
  | [] => none
  | k :: rest =>
    if inOpt scraped k && truthy (oget scraped k) then oget scraped k
    else pick scraped rest

/-- The `sget` helper of `build_location`: first candidate key with a truthy
value. -/
def sget (scraped : Option PyDict) : List String → Option String
  | [] => none
  | n :: rest =>
    if truthy (oget scraped n) then oget scraped n else sget scraped rest

structure IdentTbl where
  propertyId : Option String
  propertyName : Option String
  ownerName : Option String
  propertyType : Option String
  propertySubtype : Option String
  ownershipType : Option String
  occupancyStatus : Option String
  buildingPermit : Option String
deriving DecidableEq

/-- `out[f]` on the Identification dict. -/
def identGet (o : IdentTbl) : String → Option String
  | "Property ID" => o.propertyId
  | "Property Name" => o.propertyName
  | "Owner Name" => o.ownerName
  | "Property Type" => o.propertyType
  | "Property Subtype" => o.propertySubtype
  | "Ownership Type" => o.ownershipType
  | "Occupancy Status" => o.occupancyStatus
  | "Building Code / Permit ID" => o.buildingPermit
  | _ => none

/-- The AI-fill loop over the Identification keys. -/
def aiFillIdent (m : PyDict) (o : IdentTbl) : IdentTbl where
  propertyId := pOr o.propertyId (pget m "Property ID")
  propertyName := pOr o.propertyName (pget m "Property Name")
  ownerName := pOr o.ownerName (pget m "Owner Name")
  propertyType := pOr o.propertyType (pget m "Property Type")
  propertySubtype := pOr o.propertySubtype (pget m "Property Subtype")
  ownershipType := pOr o.ownershipType (pget m "Ownership Type")
  occupancyStatus := pOr o.occupancyStatus (pget m "Occupancy Status")
  buildingPermit := pOr o.buildingPermit (pget m "Building Code / Permit ID")

/-- `build_identification` (lines 320-363). -/
def build_identification (attom : PyDict) (scraped : Option PyDict)
    (ai : Option PyDict) (harris : Bool) : IdentTbl :=
  let o1 : IdentTbl :=
    { propertyId := pOr (oget scraped "Account Number")
        (pOr (pget attom "apn") (oget ai "Property ID")),
      propertyName := none, ownerName := none, propertyType := none,
      propertySubtype := none, ownershipType := none, occupancyStatus := none,
      buildingPermit := none }
  let o2 := if harris then
      { o1 with ownerName := pick scraped ["Owner", "Owner Name"] } else o1
  let o3 := { o2 with ownerName :=
    (if truthy o2.ownerName then o2.ownerName
      else pOr (pget attom "owner_name") (oget ai "Owner Name")) }
  let o4 := if harris then
      { o3 with
        propertyType := pick scraped ["Property Type"],
        propertySubtype := pick scraped ["Property Subtype"] }
    else o3
  let o5 := { o4 with
    propertyType := pOr o4.propertyType
      (pOr (pget attom "property_type") (oget ai "Property Type")),
    propertySubtype := pOr o4.propertySubtype
      (pOr (pget attom "property_sub_type") (oget ai "Property Subtype")) }
  let o6 := if harris then
      { o5 with
        ownershipType := pick scraped ["Ownership Type", "Ownership"],
        occupancyStatus := pick scraped ["Occupancy Status", "Occupancy"],
        buildingPermit := pick scraped
          ["Permit", "Permit ID", "Building Permit", "Building Code / Permit ID"] }
    else o5
  match ai with
  | some m => if m.isEmpty then o6 else aiFillIdent m o6
  | none => o6

structure LocTbl where
  addressLine1 : Option String
  streetName : Option String
  city : Option String
  county : Option String
  township : Option String
  state : Option String
  postalCode : Option String
  latitude : Option String
  longitude : Option String
  facingDirection : Option String
  neighborhoodType : Option String
  landmark : Option String
  legalDescription : Option String
  censusTract : Option String
  market : Option String
  submarket : Option String
  cbsa : Option String
  stateClassCode : Option String
  neighborhoodName : Option String
  mapFacet : Option String
  keyMap : Option String
  taxDistrict : Option String
  taxCode : Option String
  locationType : Option String
deriving DecidableEq

/-- `out[f]` on the Location dict. -/
def locGet (o : LocTbl) : String → Option String
  | "Address Line 1" => o.addressLine1
  | "Street Name" => o.streetName
  | "City" => o.city
  | "County" => o.county
  | "Township" => o.township
  | "State" => o.state
  | "Postal Code" => o.postalCode
  | "Latitude" => o.latitude
  | "Longitude" => o.longitude
  | "Facing Direction" => o.facingDirection
  | "Neighborhood Type" => o.neighborhoodType
  | "Landmark" => o.landmark
  | "Legal Description" => o.legalDescription
  | "Census Tract" => o.censusTract
  | "Market" => o.market
  | "Submarket" => o.submarket
  | "CBSA" => o.cbsa
  | "State Class Code" => o.stateClassCode
  | "Neighborhood Name" => o.neighborhoodName
  | "Map Facet" => o.mapFacet
  | "Key Map" => o.keyMap
  | "Tax District" => o.taxDistrict
  | "Tax Code" => o.taxCode
  | "Location Type" => o.locationType
  | _ => none

/-- The AI-fill loop over the Location keys. -/
def aiFillLoc (m : PyDict) (o : LocTbl) : LocTbl where
  addressLine1 := pOr o.addressLine1 (pget m "Address Line 1")
  streetName := pOr o.streetName (pget m "Street Name")
  city := pOr o.city (pget m "City")
  county := pOr o.county (pget m "County")
  township := pOr o.township (pget m "Township")
  state := pOr o.state (pget m "State")
  postalCode := pOr o.postalCode (pget m "Postal Code")
  latitude := pOr o.latitude (pget m "Latitude")
  longitude := pOr o.longitude (pget m "Longitude")
  facingDirection := pOr o.facingDirection (pget m "Facing Direction")
  neighborhoodType := pOr o.neighborhoodType (pget m "Neighborhood Type")
  landmark := pOr o.landmark (pget m "Landmark")
  legalDescription := pOr o.legalDescription (pget m "Legal Description")
  censusTract := pOr o.censusTract (pget m "Census Tract")
  market := pOr o.market (pget m "Market")
  submarket := pOr o.submarket (pget m "Submarket")
  cbsa := pOr o.cbsa (pget m "CBSA")
  stateClassCode := pOr o.stateClassCode (pget m "State Class Code")
  neighborhoodName := pOr o.neighborhoodName (pget m "Neighborhood Name")
  mapFacet := pOr o.mapFacet (pget m "Map Facet")
  keyMap := pOr o.keyMap (pget m "Key Map")
  taxDistrict := pOr o.taxDistrict (pget m "Tax District")
  taxCode := pOr o.taxCode (pget m "Tax Code")
  locationType := pOr o.locationType (pget m "Location Type")

/-- `build_location` (lines 366-410). -/
def build_location (attom : PyDict) (scraped : Option PyDict)
    (ai : Option PyDict) (harris : Bool) : LocTbl :=
  let o1 : LocTbl :=
    { addressLine1 := pget attom "street_name",
      streetName := pget attom "street_name",
      city := pget attom "city", county := pget attom "county",
      township := none, state := pget attom "state",
      postalCode := pget attom "zipcode", latitude := pget attom "latitude",
      longitude := pget attom "longitude", facingDirection := none,
      neighborhoodType := none, landmark := none, legalDescription := none,
      censusTract := none, market := none, submarket := none, cbsa := none,
      stateClassCode := none, neighborhoodName := none, mapFacet := none,
      keyMap := none, taxDistrict := none, taxCode := none, locationType := none }
  let o2 := if harris then
      { o1 with
        legalDescription := sget scraped ["Legal Description", "Legal", "Legal Desc"],
        neighborhoodName := sget scraped ["Neighborhood Name", "Neighborhood"],
        stateClassCode := sget scraped ["State Class Code", "State Class", "Class Code"],
        taxDistrict := sget scraped ["Tax District", "Taxing Jurisdictions", "Jurisdictions"],
        taxCode := sget scraped ["Tax Code", "Tax Code Area"],
        addressLine1 := pOr (sget scraped ["Site Address", "Situs Address"]) o1.addressLine1,
        city := pOr (sget scraped ["City"]) o1.city,
        postalCode := pOr (sget scraped ["Zip", "ZIP", "Zip Code"]) o1.postalCode }
    else o1
  match ai with
  | some m => if m.isEmpty then o2 else aiFillLoc m o2
  | none => o2

/-! ## The run pipelines

External effects are collected in an environment record; `st.error` followed
by `st.stop` is an `Outcome.errMsg`, an uncaught Python exception is
`Except.error`. -/

inductive Outcome
  | errMsg (s : String)
  | report (ident : IdentTbl) (loc : LocTbl) (structuredMd : Option String)
deriving DecidableEq

structure EnvV1 where
  loads : String → Option PyDict
  normOut : String
  resp : HttpResp
  scrape : Except PyErr (String × String)
  aiOut : String

/-- The guard of variant 1, line 458: `county == "harris" and apn` with
`county = (attom.get("county") or "").strip().lower()`. -/
def scrapeRunsV1 (attom : PyDict) : Bool :=
  (pyLower (pyStrip ((pget attom "county").getD "")) == "harris")
    && truthy (pget attom "apn")

/-- The guard of variant 2, lines 678-685: the run stops unless
`attom.get("apn")` is truthy, and every run that survives the guard
scrapes. -/
def scrapeRunsV2 (attom : PyDict) : Bool :=
  truthy (pget attom "apn")

/-- Steps 1 of variant 1's run block (lines 441-443): normalize, then the
ZIP guard. -/
def normalizeStep (env : EnvV1) (addressInput : String) : Option String :=
  enforce_user_zip addressInput (normalize_address env.loads env.normOut addressInput)

/-- Variant 1's run block (lines 436-494), up to the data handed to the UI. -/
def mainV1 (env : EnvV1) (addressInput : String) : Except PyErr Outcome :=
  if pyStrip addressInput = "" then .ok (.errMsg "Please enter an address.")
  else
    let normalized := normalizeStep env addressInput
    match fetch_attom normalized env.resp with
    | .error e => .error e
    | .ok attom =>
      if attom.isEmpty then
        .ok (.errMsg "ATTOM did not return data for this address.")
      else
        let county := pyLower (pyStrip ((pget attom "county").getD ""))
        let scrapeRes : Except PyErr (Option String × Option PyDict) :=
          if scrapeRunsV1 attom then
            match env.scrape with
            | .error e => .error e
            | .ok (_, md) =>
              match parse_structured_sections md with
              | .error e => .error e
              | .ok (_, flat) => .ok (some md, some flat)
          else .ok (none, none)
        match scrapeRes with
        | .error e => .error e
        | .ok (structuredMd, flattenedScraped) =>
          let aiGuesses := ai_fill_missing env.loads env.aiOut ALL_FIELDS
          let isHarris := (county == "harris") && structuredMd.isSome
          .ok (.report
            (build_identification attom flattenedScraped (some aiGuesses) isHarris)
            (build_location attom flattenedScraped (some aiGuesses) isHarris)
            structuredMd)

/-! ## Claim theorems -/

/-- A `json.loads` oracle that always fails, for concrete instantiations. -/
def loadsNone : String → Option PyDict := fun _ => none

/-- A `json.loads` oracle returning a fixed object, for concrete
instantiations. -/
def loadsConst (j : PyDict) : String → Option PyDict := fun _ => j

/-- C10: `extract_json_safe` is total in both variants: it hands the first
brace-delimited span (first opening brace through last closing brace) to
`json.loads`; a successful parse is returned as is; no span, or a span that
fails to parse, yields the fallback resolved by `fallback or` the empty
dict (variant 2 always uses the empty dict). -/
theorem extract_json_safe_total (loads : String → Option PyDict) (text : String)
    (fb : Option PyDict) :
    (braceSpan text = (braceSpanFirstLast text.toList).map (fun cs => String.mk cs))
    ∧ (braceSpan text = none →
        extract_json_safe loads text fb = fallbackOrEmpty fb
          ∧ extractJsonSafeV2 loads text = [])
    ∧ (∀ m, braceSpan text = some m → loads m = none →
        extract_json_safe loads text fb = fallbackOrEmpty fb
          ∧ extractJsonSafeV2 loads text = [])
    ∧ (∀ m j, braceSpan text = some m → loads m = some j →
        extract_json_safe loads text fb = j ∧ extractJsonSafeV2 loads text = j)
    ∧ fallbackOrEmpty none = []
    ∧ (∀ d : PyDict, d ≠ [] → fallbackOrEmpty (some d) = d) := by
  refine ⟨?_, ?_, ?_, ?_, rfl, ?_⟩
  · unfold braceSpan
    rw [braceSpanAux_eq_firstLast]
  · intro h
    constructor <;> simp only [extract_json_safe, extractJsonSafeV2, h]
  · intro m hm hl
    constructor <;> simp only [extract_json_safe, extractJsonSafeV2, hm, hl]
  · intro m j hm hl
    constructor <;> simp only [extract_json_safe, extractJsonSafeV2, hm, hl]
  · intro d hd
    simp only [fallbackOrEmpty]
    rw [if_neg (by simpa using hd)]

/-- Witness for C10 at concrete inputs covering each hypothesis. -/
theorem extract_json_safe_total_witness :
    (extract_json_safe loadsNone "no braces here" (some [("a", some "b")])
        = [("a", some "b")]
      ∧ extractJsonSafeV2 loadsNone "no braces here" = [])
    ∧ (extract_json_safe loadsNone "x\x7by\x7dz" (some [("a", some "b")])
        = [("a", some "b")]
      ∧ extractJsonSafeV2 loadsNone "x\x7by\x7dz" = [])
    ∧ (extract_json_safe (loadsConst [("k", none)]) "x\x7by\x7dz" none
        = [("k", none)]
      ∧ extractJsonSafeV2 (loadsConst [("k", none)]) "x\x7by\x7dz" = [("k", none)]) :=
  ⟨(extract_json_safe_total loadsNone "no braces here" (some [("a", some "b")])).2.1
      (by decide),
    ((extract_json_safe_total loadsNone "x\x7by\x7dz" (some [("a", some "b")])).2.2.1
      "\x7by\x7d" (by decide) rfl),
    ((extract_json_safe_total (loadsConst [("k", none)]) "x\x7by\x7dz" none).2.2.2.1
      "\x7by\x7d" [("k", none)] (by decide) rfl)⟩

/-- C7: whenever the regex JSON extraction fails (no brace-delimited span,
or `json.loads` raising on it), or the parsed object lacks the
`corrected_address` key, both variants of `normalize_address` return the
input address unchanged. -/
theorem normalize_address_fallback (loads : String → Option PyDict)
    (modelOut address : String) :
    (braceSpan modelOut = none →
      normalize_address loads modelOut address = some address
        ∧ normalizeAddressV2 loads modelOut address = some address)
    ∧ (∀ m, braceSpan modelOut = some m → loads m = none →
      normalize_address loads modelOut address = some address
        ∧ normalizeAddressV2 loads modelOut address = some address)
    ∧ (∀ m j, braceSpan modelOut = some m → loads m = some j →
      dget j "corrected_address" = none →
      normalize_address loads modelOut address = some address
        ∧ normalizeAddressV2 loads modelOut address = some address) := by
  refine ⟨?_, ?_, ?_⟩
  · intro h
    constructor <;>
      simp [normalize_address, normalizeAddressV2, extract_json_safe,
        extractJsonSafeV2, h, fallbackOrEmpty, pgetOr, dget, List.find?]
  · intro m hm hl
    constructor <;>
      simp [normalize_address, normalizeAddressV2, extract_json_safe,
        extractJsonSafeV2, hm, hl, fallbackOrEmpty, pgetOr, dget, List.find?]
  · intro m j hm hl hj
    constructor <;>
      simp [normalize_address, normalizeAddressV2, extract_json_safe,
        extractJsonSafeV2, hm, hl, hj, pgetOr]

/-- Witness for C7 at concrete inputs covering each hypothesis. -/
theorem normalize_address_fallback_witness :
    (normalize_address loadsNone "not json" "77 Elm St" = some "77 Elm St"
      ∧ normalizeAddressV2 loadsNone "not json" "77 Elm St" = some "77 Elm St")
    ∧ (normalize_address loadsNone "\x7bbad\x7d" "77 Elm St" = some "77 Elm St"
      ∧ normalizeAddressV2 loadsNone "\x7bbad\x7d" "77 Elm St" = some "77 Elm St")
    ∧ (normalize_address (loadsConst [("other", none)]) "\x7bbad\x7d" "77 Elm St"
        = some "77 Elm St"
      ∧ normalizeAddressV2 (loadsConst [("other", none)]) "\x7bbad\x7d" "77 Elm St"
        = some "77 Elm St") :=
  ⟨(normalize_address_fallback loadsNone "not json" "77 Elm St").1 (by decide),
    (normalize_address_fallback loadsNone "\x7bbad\x7d" "77 Elm St").2.1
      "\x7bbad\x7d" (by decide) rfl,
    (normalize_address_fallback (loadsConst [("other", none)]) "\x7bbad\x7d"
      "77 Elm St").2.2 "\x7bbad\x7d" [("other", none)] (by decide) rfl (by decide)⟩

/-- C6 counterexample: variant 2's `fetch_attom` never checks the status
code; on a non-200 response whose body is not JSON, `r.json()` raises and
the exception escapes, instead of the empty dict the claim promises. -/
theorem fetch_attom_v2_raises_cex :
    fetchAttomV2 (some "1 Main St, Houston, TX 77002")
        { status := 500, body := none } = .error .jsonDecode
      ∧ (500 : Nat) ≠ 200 := by
  constructor
  · rfl
  · decide

/-- C6 amended: variant 1 returns the empty dict on split failure, non-200
status, and empty record list, raising in none of those cases; variant 2
returns the empty dict on split failure and on an empty record list, but —
having no status check — raises `JSONDecodeError` whenever the body of any
response, non-200 included, fails to decode. -/
theorem fetch_attom_failure_collapse (a : String) (r : HttpResp) :
    (splitAddr a = none →
      fetch_attom (some a) r = .ok [] ∧ fetchAttomV2 (some a) r = .ok [])
    ∧ (r.status ≠ 200 → fetch_attom (some a) r = .ok [])
    ∧ (r.body = some [] → fetch_attom (some a) r = .ok []
        ∧ fetchAttomV2 (some a) r = .ok [])
    ∧ (splitAddr a ≠ none → r.body = none →
        fetchAttomV2 (some a) r = .error .jsonDecode) := by
  refine ⟨?_, ?_, ?_, ?_⟩
  · intro h
    constructor <;> simp [fetch_attom, fetchAttomV2, h]
  · intro h
    cases hs : splitAddr a with
    | none => simp [fetch_attom, hs]
    | some q => simp [fetch_attom, hs, h]
  · intro h
    cases hs : splitAddr a with
    | none => constructor <;> simp [fetch_attom, fetchAttomV2, hs]
    | some q =>
      constructor
      · by_cases hst : r.status = 200
        · simp [fetch_attom, hs, hst, h]
        · simp [fetch_attom, hs, hst]
      · simp [fetchAttomV2, hs, h]
  · intro hs hb
    cases hs' : splitAddr a with
    | none => exact absurd hs' hs
    | some q => simp [fetchAttomV2, hs', hb]

/-- Witness for C6's amended theorem at concrete inputs. -/
theorem fetch_attom_failure_collapse_witness :
    (fetch_attom (some "no commas here") { status := 200, body := some [] } = .ok []
      ∧ fetchAttomV2 (some "no commas here") { status := 200, body := some [] } = .ok [])
    ∧ fetch_attom (some "1 Main St, Houston, TX 77002") { status := 401, body := none } = .ok []
    ∧ (fetch_attom (some "1 Main St, Houston, TX 77002") { status := 200, body := some [] } = .ok []
      ∧ fetchAttomV2 (some "1 Main St, Houston, TX 77002") { status := 200, body := some [] } = .ok [])
    ∧ fetchAttomV2 (some "1 Main St, Houston, TX 77002") { status := 200, body := none }
        = .error .jsonDecode :=
  ⟨(fetch_attom_failure_collapse "no commas here" { status := 200, body := some [] }).1
      (by decide),
    (fetch_attom_failure_collapse "1 Main St, Houston, TX 77002"
      { status := 401, body := none }).2.1 (by decide),
    (fetch_attom_failure_collapse "1 Main St, Houston, TX 77002"
      { status := 200, body := some [] }).2.2.1 rfl,
    (fetch_attom_failure_collapse "1 Main St, Houston, TX 77002"
      { status := 200, body := none }).2.2.2 (by decide) rfl⟩

/-- The county test of the claim's wording: the ATTOM county value, trimmed
and lowercased, equals "harris" (an absent or `None` county never
matches). -/
def harrisCounty (attom : PyDict) : Bool :=
  match pget attom "county" with
  | some c => pyLower (pyStrip c) == "harris"
  | none => false

/-- The gate in the claim's wording: Harris county and a truthy APN. -/
def harrisGate (attom : PyDict) : Bool :=
  harrisCounty attom && truthy (pget attom "apn")

/-- C2 counterexample: variant 2 scrapes for every county once an APN is
present — here county "Dallas" — refuting "the pipeline invokes the HCAD
scrape if and only if the ATTOM county equals harris and an APN is
present". -/
theorem scrape_gate_v2_cex :
    scrapeRunsV2 [("county", some "Dallas"), ("apn", some "12345")] = true
      ∧ harrisGate [("county", some "Dallas"), ("apn", some "12345")] = false := by
  decide

/-- C2 amended: variant 1 scrapes exactly when the trimmed, lowercased
ATTOM county is "harris" and the APN is truthy, and otherwise hands the UI a
report built from ATTOM and the AI guesses alone (no scrape, no structured
markdown); variant 2 scrapes exactly when the APN is truthy, regardless of
county. -/
theorem scrape_gate_characterization (attom : PyDict) :
    (scrapeRunsV1 attom = harrisGate attom)
    ∧ (scrapeRunsV2 attom = truthy (pget attom "apn"))
    ∧ (∀ (env : EnvV1) (addr : String), ¬ pyStrip addr = "" →
        fetch_attom (normalizeStep env addr) env.resp = .ok attom →
        attom.isEmpty = false →
        scrapeRunsV1 attom = false →
        mainV1 env addr = .ok (.report
          (build_identification attom none
            (some (ai_fill_missing env.loads env.aiOut ALL_FIELDS)) false)
          (build_location attom none
            (some (ai_fill_missing env.loads env.aiOut ALL_FIELDS)) false)
          none)) := by
  refine ⟨?_, rfl, ?_⟩
  · unfold scrapeRunsV1 harrisGate harrisCounty
    cases hc : pget attom "county" with
    | none =>
      have h1 : (pyLower (pyStrip ((none : Option String).getD "")) == "harris")
          = false := by decide
      rw [h1]
    | some c => rfl
  · intro env addr ha hf he hg
    unfold mainV1
    rw [if_neg ha]
    simp only [hf, he, hg, Bool.false_eq_true, if_false, Option.isSome_none,
      Bool.and_false]

/-- Witness for C2's amended theorem: a concrete non-Harris run built from
ATTOM and AI only. -/
theorem scrape_gate_characterization_witness :
    mainV1
      { loads := loadsNone,
        normOut := "x",
        resp :=
          { status := 200,
            body := some
              [{ apn := some "12345",
                 line1 := some "1 Main St",
                 locality := some "Dallas",
                 countrySecSubd := some "Dallas",
                 countrySubd := some "TX",
                 postal1 := some "75201",
                 country := some "US",
                 latitude := some "32.7",
                 longitude := some "-96.8",
                 propSubType := some "Residential",
                 propType := some "SFR",
                 owner1name := some "DOE JOHN" }] },
        scrape := .error (.scrapeFail "never called"),
        aiOut := "no json" }
      "1 Main St, Dallas, TX 75201"
      = .ok (.report
        (build_identification
          [("apn", some "12345"), ("street_name", some "1 Main St"),
            ("city", some "Dallas"), ("county", some "Dallas"),
            ("state", some "TX"), ("zipcode", some "75201"),
            ("country", some "US"), ("latitude", some "32.7"),
            ("longitude", some "-96.8"), ("property_type", some "Residential"),
            ("property_sub_type", some "SFR"), ("owner_name", some "DOE JOHN")]
          none (some (ai_fill_missing loadsNone "no json" ALL_FIELDS)) false)
        (build_location
          [("apn", some "12345"), ("street_name", some "1 Main St"),
            ("city", some "Dallas"), ("county", some "Dallas"),
            ("state", some "TX"), ("zipcode", some "75201"),
            ("country", some "US"), ("latitude", some "32.7"),
            ("longitude", some "-96.8"), ("property_type", some "Residential"),
            ("property_sub_type", some "SFR"), ("owner_name", some "DOE JOHN")]
          none (some (ai_fill_missing loadsNone "no json" ALL_FIELDS)) false)
        none) :=
  (scrape_gate_characterization _).2.2 _ "1 Main St, Dallas, TX 75201"
    (by decide) (by rfl) (by rfl) (by rfl)

/-- C8: the only ZIP validation: when both the original input and the
corrected address contain a five-digit ZIP (`\b\d\x7b5\x7d\b`) and the first
ones differ, the user's ZIP replaces the first such occurrence in the
corrected address (splicing at the first match); in every other case the
corrected address is returned unchanged. -/
theorem enforce_user_zip_spec (original : String) (corrected : Option String) :
    ((findZips original = [] ∨ findZips (corrected.getD "") = []
        ∨ (findZips original).head? = (findZips (corrected.getD "")).head?) →
      enforce_user_zip original corrected = corrected)
    ∧ (∀ s, corrected = some s → findZips original ≠ [] → findZips s ≠ [] →
        (findZips original).head? ≠ (findZips s).head? →
        enforce_user_zip original corrected
          = some (subFirstZip s ((findZips original).headD "")))
    ∧ (∀ s r b m a, firstZipCut s = some (b, m, a) →
        subFirstZip s r = b ++ r ++ a ∧ (findZips s).head? = some m)
    ∧ (∀ s r, firstZipCut s = none → subFirstZip s r = s ∧ findZips s = []) := by
  refine ⟨?_, ?_, ?_, ?_⟩
  · intro h
    unfold enforce_user_zip
    rw [if_neg]
    intro ⟨h1, h2, h3⟩
    rcases h with h | h | h
    · exact h1 h
    · exact h2 h
    · exact h3 h
  · intro s hs h1 h2 h3
    subst hs
    unfold enforce_user_zip
    rw [if_pos]
    exact ⟨h1, by simpa using h2, by simpa using h3⟩
  · intro s r b m a h
    cases haux : firstZipCutAux none s.toList with
    | none =>
      unfold firstZipCut at h
      rw [haux] at h
      exact Option.noConfusion h
    | some p =>
      obtain ⟨bl, ml, al⟩ := p
      unfold firstZipCut at h
      rw [haux] at h
      simp only [Option.map_some', Option.some.injEq, Prod.mk.injEq] at h
      obtain ⟨hb, hm, ha⟩ := h
      obtain ⟨e1, e2, _⟩ := (zipEngine none s.toList).2 bl ml al haux
      constructor
      · unfold subFirstZip
        rw [e2 r.toList, ← hb, ← ha]
        rfl
      · unfold findZips
        rw [e1, hm]
  · intro s r h
    have haux : firstZipCutAux none s.toList = none := by
      unfold firstZipCut at h
      exact Option.map_eq_none'.mp h
    obtain ⟨e1, e2⟩ := (zipEngine none s.toList).1 haux
    have hmk : String.mk s.toList = s := rfl
    exact ⟨by unfold subFirstZip; rw [e2 r.toList]; exact hmk,
      by unfold findZips; rw [e1]⟩

/-- Witness for C8 at concrete inputs: a differing-ZIP pair (spliced), an
agreeing pair (unchanged), and a first-match decomposition. -/
theorem enforce_user_zip_spec_witness :
    enforce_user_zip "9 Oak, Austin, TX 11111" (some "9 Oak St, Austin, TX 22222")
      = some (subFirstZip "9 Oak St, Austin, TX 22222" "11111")
    ∧ enforce_user_zip "9 Oak" (some "9 Oak St") = some "9 Oak St"
    ∧ subFirstZip "9 Oak St, Austin, TX 22222" "11111"
      = "9 Oak St, Austin, TX " ++ "11111" ++ ""
    ∧ (findZips "9 Oak St, Austin, TX 22222").head? = some "22222" :=
  ⟨(enforce_user_zip_spec "9 Oak, Austin, TX 11111"
      (some "9 Oak St, Austin, TX 22222")).2.1 _ rfl (by decide) (by decide) (by decide),
    (enforce_user_zip_spec "9 Oak" (some "9 Oak St")).1 (Or.inl (by decide)),
    ((enforce_user_zip_spec "9 Oak St, Austin, TX 22222" none).2.2.1
      "9 Oak St, Austin, TX 22222" "11111" "9 Oak St, Austin, TX " "22222" ""
      (by decide)).1,
    ((enforce_user_zip_spec "9 Oak St, Austin, TX 22222" none).2.2.1
      "9 Oak St, Austin, TX 22222" "11111" "9 Oak St, Austin, TX " "22222" ""
      (by decide)).2⟩

/-- C5: the flattened key-to-value map of `parse_structured_sections` holds,
for every key, the value of the last row with that key in document order
(within or across sections); keys with no row are absent. -/
theorem flat_last_write_wins (md : String) (secs : PyMap DF) (flat : PyDict)
    (h : parse_structured_sections md = .ok (secs, flat)) (k : String) :
    dget flat k = ((docPairs md).reverse.find? (fun p => p.1 == k)).map (·.2) := by
  unfold parse_structured_sections at h
  have hf := parseChunks_flat _ _ _ _ h
  rw [hf, dget_foldl_pyUpd]
  show (match (docPairs md).reverse.find? (fun p => p.1 == k) with
      | some q => some q.2
      | none => dget ([] : PyDict) k)
    = ((docPairs md).reverse.find? (fun p => p.1 == k)).map (·.2)
  cases (docPairs md).reverse.find? (fun p => p.1 == k) <;> rfl

/-- Witness for C5: a document writing "k" twice, across two sections; the
flat map holds the second value. -/
theorem flat_last_write_wins_witness :
    dget [("k", some "v2")] "k"
      = ((docPairs
          "## A\n| Field | Value |\n| --- | --- |\n| k | v1 |\n## B\n| Field | Value |\n| k | v2 |").reverse.find?
            (fun p => p.1 == "k")).map (·.2)
    ∧ dget [("k", some "v2")] "k" = some (some "v2") :=
  ⟨flat_last_write_wins
      "## A\n| Field | Value |\n| --- | --- |\n| k | v1 |\n## B\n| Field | Value |\n| k | v2 |"
      [("A", ⟨["Field", "Value"], [[some "k", some "v1"]]⟩),
        ("B", ⟨["Field", "Value"], [[some "k", some "v2"]]⟩)]
      [("k", some "v2")] (by rfl) "k",
    by decide⟩

/-- The column list is one or more "Field" columns followed by one or more
"Value" columns. -/
def isFVShape (cs : List String) : Bool :=
  !(cs.takeWhile (fun c => c == "Field")).isEmpty
    && !(cs.dropWhile (fun c => c == "Field")).isEmpty
    && (cs.dropWhile (fun c => c == "Field")).all (fun c => c == "Value")

/-- The skip condition of a chunk: blank, or its table unparseable, or the
table narrower than two columns. -/
def skipChunk (chunk : String) : Bool :=
  (trimChars chunk.toList).isEmpty ||
    (match markdown_table_to_df (tableMdOf chunk) with
     | none => true
     | some df => decide (df.cols.length < 2))

theorem takeWhile_dropWhile_FV (lF lV : List String)
    (hF : lF.all (fun c => c == "Field") = true)
    (hV : lV.all (fun c => c == "Value") = true) (hVne : lV ≠ []) :
    (lF ++ lV).takeWhile (fun c => c == "Field") = lF
      ∧ (lF ++ lV).dropWhile (fun c => c == "Field") = lV := by
  have hvf : (("Value" : String) == "Field") = false := by decide
  have hff : (("Field" : String) == "Field") = true := by decide
  induction lF with
  | nil =>
    cases lV with
    | nil => exact absurd rfl hVne
    | cons v tv =>
      simp only [List.all_cons, Bool.and_eq_true] at hV
      have hv : v = "Value" := by simpa using hV.1
      subst hv
      exact ⟨by simp [List.takeWhile_cons, hvf], by simp [List.dropWhile_cons, hvf]⟩
  | cons a t ih =>
    simp only [List.all_cons, Bool.and_eq_true] at hF
    have ha : a = "Field" := by simpa using hF.1
    subst ha
    obtain ⟨ih1, ih2⟩ := ih hF.2
    exact ⟨by simp [List.takeWhile_cons, hff, ih1],
      by simp [List.dropWhile_cons, hff, ih2]⟩

theorem isFVShape_of_append (lF lV : List String)
    (hFne : lF ≠ []) (hVne : lV ≠ [])
    (hF : lF.all (fun c => c == "Field") = true)
    (hV : lV.all (fun c => c == "Value") = true) :
    isFVShape (lF ++ lV) = true := by
  obtain ⟨h1, h2⟩ := takeWhile_dropWhile_FV lF lV hF hV hVne
  unfold isFVShape
  rw [h1, h2]
  simp [hF, hV, List.isEmpty_iff, hFne, hVne]

/-- Every frame produced by `selectFV` has all-Field columns then all-Value
columns, both nonempty. -/
theorem selectFV_shape (df df' : DF) (h : selectFV df = .ok df') :
    ∃ lF lV, df'.cols = lF ++ lV ∧ lF ≠ [] ∧ lV ≠ []
      ∧ lF.all (fun c => c == "Field") = true
      ∧ lV.all (fun c => c == "Value") = true := by
  unfold selectFV at h
  by_cases h1 : ((List.range df.cols.length).filter
      (fun i => df.cols.getD i "" = "Field")).isEmpty
  · rw [if_pos h1] at h
    exact absurd h (by simp)
  · rw [if_neg h1] at h
    by_cases h2 : ((List.range df.cols.length).filter
        (fun i => df.cols.getD i "" = "Value")).isEmpty
    · rw [if_pos h2] at h
      exact absurd h (by simp)
    · rw [if_neg h2] at h
      simp only [Except.ok.injEq] at h
      refine ⟨((List.range df.cols.length).filter
          (fun i => df.cols.getD i "" = "Field")).map (fun i => df.cols.getD i ""),
        ((List.range df.cols.length).filter
          (fun i => df.cols.getD i "" = "Value")).map (fun i => df.cols.getD i ""),
        ?_, ?_, ?_, ?_, ?_⟩
      · rw [← h]
        simp [List.map_append]
      · simpa [List.isEmpty_iff] using h1
      · simpa [List.isEmpty_iff] using h2
      · rw [List.all_eq_true]
        intro x hx
        obtain ⟨i, hi, hix⟩ := List.mem_map.mp hx
        have := List.of_mem_filter hi
        simp only [decide_eq_true_eq] at this
        rw [← hix, this]
        rfl
      · rw [List.all_eq_true]
        intro x hx
        obtain ⟨i, hi, hix⟩ := List.mem_map.mp hx
        have := List.of_mem_filter hi
        simp only [decide_eq_true_eq] at this
        rw [← hix, this]
        rfl

/-- Every stored frame comes out of `selectFV`. -/
theorem chunkEntry_shape (c name : String) (df : DF) (ps : List (String × Cell))
    (h : chunkEntry c = .ok (some (name, df, ps))) :
    ∃ lF lV, df.cols = lF ++ lV ∧ lF ≠ [] ∧ lV ≠ []
      ∧ lF.all (fun c => c == "Field") = true
      ∧ lV.all (fun c => c == "Value") = true := by
  unfold chunkEntry at h
  split at h
  · exact absurd h (by simp)
  · split at h
    · exact absurd h (by simp)
    · split at h
      · exact absurd h (by simp)
      · split at h
        · exact absurd h (by simp)
        · rename_i df1 hs
          simp only [Except.ok.injEq, Option.some.injEq, Prod.mk.injEq] at h
          obtain ⟨-, hdf, -⟩ := h
          subst hdf
          exact selectFV_shape _ _ hs

/-- The sections map of a parse, disregarding the flat map. -/
def sectionsOf (md : String) : Option (PyMap DF) :=
  match parse_structured_sections md with
  | .ok (secs, _) => some secs
  | .error _ => none

/-- C9 counterexample: a table whose middle column is literally named
"Field" — after the first column is renamed to "Field" too, the selection
`df[["Field", "Value"]]` returns both, and the stored frame has three
columns, not exactly ["Field", "Value"].  Only the sections map is
asserted: on this duplicated-label frame the flat-map keys go through a
pandas sub-Series rendering that this model does not pin down. -/
theorem sections_fv_shape_cex :
    sectionsOf "## S\n| X | Field | Value |\n| a | b | c |"
      = some [("S", ⟨["Field", "Field", "Value"],
          [[some "a", some "b", some "c"]]⟩)]
    ∧ (["Field", "Field", "Value"] : List String) ≠ ["Field", "Value"] :=
  ⟨rfl, by decide⟩

/-- A chunk yields no entry exactly when the skip condition holds. -/
theorem chunkEntry_skip_iff (chunk : String) :
    chunkEntry chunk = .ok none ↔ skipChunk chunk = true := by
  constructor
  · intro hn
    unfold chunkEntry at hn
    unfold skipChunk
    split at hn
    · rename_i h0
      simp only [Bool.or_eq_true, List.isEmpty_iff]
      exact Or.inl h0
    · split at hn
      · simp
      · rename_i df hm
        split at hn
        · rename_i h2
          simp [h2]
        · split at hn
          · exact absurd hn (by simp)
          · exact absurd hn (by simp)
  · intro hs
    unfold skipChunk at hs
    unfold chunkEntry
    rw [Bool.or_eq_true] at hs
    rcases hs with h0 | hrest
    · have h0' : trimChars chunk.toList = [] := by
        simpa [List.isEmpty_iff] using h0
      rw [if_pos h0']
    · by_cases h0 : trimChars chunk.toList = []
      · rw [if_pos h0]
      · rw [if_neg h0]
        cases hm : markdown_table_to_df (tableMdOf chunk) with
        | none => rfl
        | some df =>
          rw [hm] at hrest
          have h2 : df.cols.length < 2 := by simpa using hrest
          simp [h2]

/-- C9 amended: every frame stored in the sections map has one or more
columns labelled "Field" followed by one or more labelled "Value" — exactly
["Field", "Value"] whenever there are two columns — and a chunk is skipped
exactly when it is blank, its table fails to parse, or the table has fewer
than two columns. -/
theorem sections_fv_shape (md : String) (secs : PyMap DF) (flat : PyDict)
    (h : parse_structured_sections md = .ok (secs, flat)) :
    (∀ name df, dget secs name = some df →
      isFVShape df.cols = true ∧ (df.cols.length = 2 → df.cols = ["Field", "Value"]))
    ∧ (∀ chunk, chunkEntry chunk = .ok none ↔ skipChunk chunk = true) := by
  unfold parse_structured_sections at h
  constructor
  · refine parseChunks_secs _ _ _ _ _ h ?_ ?_
    · intro name df hd
      exact absurd hd (by simp [dget, List.find?])
    · intro c name df ps hce
      obtain ⟨lF, lV, hcols, hFne, hVne, hF, hV⟩ := chunkEntry_shape c name df ps hce
      constructor
      · rw [hcols]
        exact isFVShape_of_append lF lV hFne hVne hF hV
      · intro hlen
        rw [hcols] at hlen ⊢
        rw [List.length_append] at hlen
        have hFp : 1 ≤ lF.length := List.length_pos.mpr hFne
        have hVp : 1 ≤ lV.length := List.length_pos.mpr hVne
        have hF1 : lF.length = 1 := by omega
        have hV1 : lV.length = 1 := by omega
        obtain ⟨x, hx⟩ := List.length_eq_one.mp hF1
        obtain ⟨y, hy⟩ := List.length_eq_one.mp hV1
        subst hx
        subst hy
        have hxf : x = "Field" := by simpa using hF
        have hyv : y = "Value" := by simpa using hV
        rw [hxf, hyv]
        rfl
  · intro chunk
    exact chunkEntry_skip_iff chunk

/-- Witness for C9's amended theorem: a regular two-column section frame,
and a skipped blank chunk. -/
theorem sections_fv_shape_witness :
    (isFVShape (DF.mk ["Field", "Value"] [[some "a", some "1"]]).cols = true
      ∧ ((DF.mk ["Field", "Value"] [[some "a", some "1"]]).cols.length = 2 →
          (DF.mk ["Field", "Value"] [[some "a", some "1"]]).cols = ["Field", "Value"]))
    ∧ (chunkEntry "plain text, no table" = .ok none
        ↔ skipChunk "plain text, no table" = true) :=
  ⟨(sections_fv_shape "## T\n| Field | Value |\n| a | 1 |"
      [("T", ⟨["Field", "Value"], [[some "a", some "1"]]⟩)]
      [("a", some "1")] (by rfl)).1 "T"
      (DF.mk ["Field", "Value"] [[some "a", some "1"]]) (by rfl),
    (sections_fv_shape "## T\n| Field | Value |\n| a | 1 |"
      [("T", ⟨["Field", "Value"], [[some "a", some "1"]]⟩)]
      [("a", some "1")] (by rfl)).2 "plain text, no table"⟩

/-! ## C1/C4: the merge priority chains -/

theorem pOr_absorb2 (a g : Option String) : pOr (pOr a g) g = pOr a g := by
  rw [pOr_assoc, pOr_self]

theorem ite_truthy_pOr (x y : Option String) :
    (if truthy x = true then x else y) = pOr x y := rfl

@[simp] theorem oget_none (k : String) : oget none k = none := rfl

@[simp] theorem pget_nil (k : String) : pget [] k = none := rfl

theorem pick_none (ks : List String) : pick none ks = none := by
  induction ks with
  | nil => rfl
  | cons k rest ih => simp [pick, inOpt, ih]

theorem sget_none (ks : List String) : sget none ks = none := by
  induction ks with
  | nil => rfl
  | cons k rest ih => simp [sget, oget, truthy, ih]

/-- `pick` yields `None` or a truthy value, so `or`-ing `None` behind it is
the identity. -/
theorem pOr_pick_none (scraped : Option PyDict) (ks : List String) :
    pOr (pick scraped ks) none = pick scraped ks := by
  induction ks with
  | nil => rfl
  | cons k rest ih =>
    unfold pick
    by_cases hc : (inOpt scraped k && truthy (oget scraped k)) = true
    · rw [if_pos hc]
      exact pOr_of_truthy (Bool.and_elim_right hc) none
    · rw [if_neg hc]
      exact ih

/-- `sget` yields `None` or a truthy value, so `or`-ing `None` behind it is
the identity. -/
theorem pOr_sget_none (scraped : Option PyDict) (ks : List String) :
    pOr (sget scraped ks) none = sget scraped ks := by
  induction ks with
  | nil => rfl
  | cons k rest ih =>
    unfold sget
    by_cases hc : truthy (oget scraped k) = true
    · rw [if_pos hc]
      exact pOr_of_truthy hc none
    · rw [if_neg hc]
      exact ih

/-- The scraped-source value of each Identification field, through the
code's candidate keys ("Account Number" for the parcel id, etc.). -/
def identScrapedVal (scraped : Option PyDict) : String → Option String
  | "Property ID" => oget scraped "Account Number"
  | "Owner Name" => pick scraped ["Owner", "Owner Name"]
  | "Property Type" => pick scraped ["Property Type"]
  | "Property Subtype" => pick scraped ["Property Subtype"]
  | "Ownership Type" => pick scraped ["Ownership Type", "Ownership"]
  | "Occupancy Status" => pick scraped ["Occupancy Status", "Occupancy"]
  | "Building Code / Permit ID" =>
    pick scraped ["Permit", "Permit ID", "Building Permit", "Building Code / Permit ID"]
  | _ => none

/-- The ATTOM-source value of each Identification field. -/
def identAttomVal (attom : PyDict) : String → Option String
  | "Property ID" => pget attom "apn"
  | "Owner Name" => pget attom "owner_name"
  | "Property Type" => pget attom "property_type"
  | "Property Subtype" => pget attom "property_sub_type"
  | _ => none

/-- The scraped-source value of each Location field. -/
def locScrapedVal (scraped : Option PyDict) : String → Option String
  | "Address Line 1" => sget scraped ["Site Address", "Situs Address"]
  | "City" => sget scraped ["City"]
  | "Postal Code" => sget scraped ["Zip", "ZIP", "Zip Code"]
  | "Legal Description" => sget scraped ["Legal Description", "Legal", "Legal Desc"]
  | "Neighborhood Name" => sget scraped ["Neighborhood Name", "Neighborhood"]
  | "State Class Code" => sget scraped ["State Class Code", "State Class", "Class Code"]
  | "Tax District" => sget scraped ["Tax District", "Taxing Jurisdictions", "Jurisdictions"]
  | "Tax Code" => sget scraped ["Tax Code", "Tax Code Area"]
  | _ => none

/-- The ATTOM-source value of each Location field. -/
def locAttomVal (attom : PyDict) : String → Option String
  | "Address Line 1" => pget attom "street_name"
  | "Street Name" => pget attom "street_name"
  | "City" => pget attom "city"
  | "County" => pget attom "county"
  | "State" => pget attom "state"
  | "Postal Code" => pget attom "zipcode"
  | "Latitude" => pget attom "latitude"
  | "Longitude" => pget attom "longitude"
  | _ => none

/-- The spec's priority rule: the first non-empty of scraped value, ATTOM
value, AI guess. -/
def mergeChain (s a g : Option String) : Option String := pOr s (pOr a g)

set_option maxHeartbeats 4000000 in
/-- Each built table field equals the priority chain of its three source
values.  The hypotheses mirror the pipeline invariants: the scraped map is
only passed on Harris runs, and the AI-guess dict always carries the full
requested key set (hence nonempty). -/
theorem buildTables_eq_chain (attom : PyDict) (scraped : Option PyDict)
    (m : PyDict) (harris : Bool) (hs : harris = false → scraped = none)
    (hm : m.isEmpty = false) :
    (∀ f ∈ IDENTIFICATION_FIELDS,
      identGet (build_identification attom scraped (some m) harris) f
        = mergeChain (identScrapedVal scraped f) (identAttomVal attom f)
            (oget (some m) f))
    ∧ (∀ f ∈ LOCATION_FIELDS,
      locGet (build_location attom scraped (some m) harris) f
        = mergeChain (locScrapedVal scraped f) (locAttomVal attom f)
            (oget (some m) f)) := by
  cases harris with
  | false =>
    have hscr := hs rfl
    subst hscr
    constructor
    · intro f hf
      simp only [IDENTIFICATION_FIELDS] at hf
      fin_cases hf <;>
        simp [build_identification, aiFillIdent, identGet, identScrapedVal,
          identAttomVal, mergeChain, oget, ite_truthy_pOr, pOr_assoc, pOr_self,
          pOr_none_left, pick_none, sget_none, hm, pOr_pick_none, pOr_sget_none]
    · intro f hf
      simp only [LOCATION_FIELDS] at hf
      fin_cases hf <;>
        simp [build_location, aiFillLoc, locGet, locScrapedVal,
          locAttomVal, mergeChain, oget, ite_truthy_pOr, pOr_assoc, pOr_self,
          pOr_none_left, pick_none, sget_none, hm, pOr_pick_none, pOr_sget_none]
  | true =>
    constructor
    · intro f hf
      simp only [IDENTIFICATION_FIELDS] at hf
      fin_cases hf <;>
        simp [build_identification, aiFillIdent, identGet, identScrapedVal,
          identAttomVal, mergeChain, oget, ite_truthy_pOr, pOr_assoc, pOr_self,
          pOr_none_left, hm, pOr_pick_none, pOr_sget_none]
    · intro f hf
      simp only [LOCATION_FIELDS] at hf
      fin_cases hf <;>
        simp [build_location, aiFillLoc, locGet, locScrapedVal,
          locAttomVal, mergeChain, oget, ite_truthy_pOr, pOr_assoc, pOr_self,
          pOr_none_left, hm, pOr_pick_none, pOr_sget_none]

/-- C1: for every field of the Identification and Location tables, the
merged value is the static priority chain scraped > ATTOM > AI, first
non-empty (Python-truthy) value winning, where each field's scraped and
ATTOM source values are read through the code's key correspondences.
Pipeline invariants as hypotheses: scraped is `None` on non-Harris runs and
the AI-guess dict carries the full requested key set. -/
theorem merge_priority_chain (attom : PyDict) (scraped : Option PyDict)
    (m : PyDict) (harris : Bool) (hs : harris = false → scraped = none)
    (hm : m.isEmpty = false) :
    (∀ f ∈ IDENTIFICATION_FIELDS,
      identGet (build_identification attom scraped (some m) harris) f
        = mergeChain (identScrapedVal scraped f) (identAttomVal attom f)
            (oget (some m) f))
    ∧ (∀ f ∈ LOCATION_FIELDS,
      locGet (build_location attom scraped (some m) harris) f
        = mergeChain (locScrapedVal scraped f) (locAttomVal attom f)
            (oget (some m) f)) :=
  buildTables_eq_chain attom scraped m harris hs hm

/-- Witness for C1 at concrete inputs: a Harris run where the scraped
Account Number beats the ATTOM APN, and the ATTOM city beats the AI city. -/
theorem merge_priority_chain_witness :
    identGet (build_identification
        [("apn", some "123"), ("owner_name", some "")]
        (some [("Account Number", some "ACC9")])
        (some [("Property ID", some "AI-ID"), ("City", some "AI City")]) true)
      "Property ID"
      = mergeChain (identScrapedVal (some [("Account Number", some "ACC9")]) "Property ID")
          (identAttomVal [("apn", some "123"), ("owner_name", some "")] "Property ID")
          (oget (some [("Property ID", some "AI-ID"), ("City", some "AI City")]) "Property ID")
    ∧ locGet (build_location
        [("apn", some "123"), ("city", some "Houston")]
        (some [("Account Number", some "ACC9")])
        (some [("Property ID", some "AI-ID"), ("City", some "AI City")]) true)
      "City"
      = mergeChain (locScrapedVal (some [("Account Number", some "ACC9")]) "City")
          (locAttomVal [("apn", some "123"), ("city", some "Houston")] "City")
          (oget (some [("Property ID", some "AI-ID"), ("City", some "AI City")]) "City") :=
  ⟨(merge_priority_chain [("apn", some "123"), ("owner_name", some "")]
      (some [("Account Number", some "ACC9")])
      [("Property ID", some "AI-ID"), ("City", some "AI City")] true
      (by intro h; exact absurd h (by decide)) (by decide)).1
      "Property ID" (by decide),
    (merge_priority_chain [("apn", some "123"), ("city", some "Houston")]
      (some [("Account Number", some "ACC9")])
      [("Property ID", some "AI-ID"), ("City", some "AI City")] true
      (by intro h; exact absurd h (by decide)) (by decide)).2
      "City" (by decide)⟩

/-- C4: the AI guesses only land in fields whose scraped and ATTOM source
values are empty; whenever a field has a truthy scraped value the merged
value is that scraped value, and whenever the scraped value is empty but
the ATTOM value truthy the merged value is the ATTOM value — regardless of
the AI-guess dict's contents. -/
theorem ai_fill_frame (attom : PyDict) (scraped : Option PyDict)
    (m : PyDict) (harris : Bool) (hs : harris = false → scraped = none)
    (hm : m.isEmpty = false) :
    (∀ f ∈ IDENTIFICATION_FIELDS,
      (truthy (identScrapedVal scraped f) = true →
        identGet (build_identification attom scraped (some m) harris) f
          = identScrapedVal scraped f)
      ∧ (truthy (identScrapedVal scraped f) = false →
          truthy (identAttomVal attom f) = true →
          identGet (build_identification attom scraped (some m) harris) f
            = identAttomVal attom f))
    ∧ (∀ f ∈ LOCATION_FIELDS,
      (truthy (locScrapedVal scraped f) = true →
        locGet (build_location attom scraped (some m) harris) f
          = locScrapedVal scraped f)
      ∧ (truthy (locScrapedVal scraped f) = false →
          truthy (locAttomVal attom f) = true →
          locGet (build_location attom scraped (some m) harris) f
            = locAttomVal attom f)) := by
  obtain ⟨h1, h2⟩ := buildTables_eq_chain attom scraped m harris hs hm
  constructor
  · intro f hf
    constructor
    · intro ht
      rw [h1 f hf]
      exact pOr_of_truthy ht _
    · intro hf1 ht
      rw [h1 f hf]
      unfold mergeChain
      rw [pOr_of_falsy hf1, pOr_of_truthy ht]
  · intro f hf
    constructor
    · intro ht
      rw [h2 f hf]
      exact pOr_of_truthy ht _
    · intro hf1 ht
      rw [h2 f hf]
      unfold mergeChain
      rw [pOr_of_falsy hf1, pOr_of_truthy ht]

/-- Witness for C4 at concrete inputs: a truthy scraped Owner beats the
ATTOM owner even though the AI dict has an Owner Name guess; an empty
scraped City with a truthy ATTOM city beats the AI guess. -/
theorem ai_fill_frame_witness :
    identGet (build_identification
        [("owner_name", some "ATTOM OWNER")]
        (some [("Owner", some "SCRAPED OWNER")])
        (some [("Owner Name", some "AI OWNER"), ("City", some "AI City")]) true)
      "Owner Name"
      = identScrapedVal (some [("Owner", some "SCRAPED OWNER")]) "Owner Name"
    ∧ locGet (build_location
        [("city", some "Houston")]
        (some [("Owner", some "SCRAPED OWNER")])
        (some [("Owner Name", some "AI OWNER"), ("City", some "AI City")]) true)
      "City"
      = locAttomVal [("city", some "Houston")] "City" :=
  ⟨((ai_fill_frame [("owner_name", some "ATTOM OWNER")]
      (some [("Owner", some "SCRAPED OWNER")])
      [("Owner Name", some "AI OWNER"), ("City", some "AI City")] true
      (by intro h; exact absurd h (by decide)) (by decide)).1
      "Owner Name" (by decide)).1 (by decide),
    ((ai_fill_frame [("city", some "Houston")]
      (some [("Owner", some "SCRAPED OWNER")])
      [("Owner Name", some "AI OWNER"), ("City", some "AI City")] true
      (by intro h; exact absurd h (by decide)) (by decide)).2
      "City" (by decide)).2 (by decide) (by decide)⟩

/-! ## C3: error handling of the run pipeline -/

/-- The run ended in an uncaught Python exception. -/
def isUncaught : Except PyErr Outcome → Bool
  | .error _ => true
  | .ok _ => false

/-- The run ended in a `st.error` UI message. -/
def isErrMsgOutcome : Except PyErr Outcome → Bool
  | .ok (.errMsg _) => true
  | _ => false

/-- An ATTOM record for a Harris-county property. -/
def harrisRec : PropRec :=
  { apn := some "0660640130020", line1 := some "1 Main St",
    locality := some "Houston", countrySecSubd := some "Harris",
    countrySubd := some "TX", postal1 := some "77002", country := some "US",
    latitude := some "29.7", longitude := some "-95.3",
    propSubType := some "Residential", propType := some "SFR",
    owner1name := some "DOE JANE" }

/-- An environment whose ATTOM response is a Harris property and whose
scrape raises (e.g. a Selenium timeout). -/
def envHarrisScrapeFail : EnvV1 :=
  { loads := loadsNone, normOut := "not json",
    resp := { status := 200, body := some [harrisRec] },
    scrape := .error (.scrapeFail "TimeoutException"), aiOut := "not json" }

/-- C3 counterexample: on a Harris run whose scrape step raises, the run
block has no `try/except` around the scrape call — the exception propagates
out of the pipeline instead of being suppressed into a generic UI
message. -/
theorem scrape_error_propagates_cex :
    mainV1 envHarrisScrapeFail "1 Main St, Houston, TX 77002"
        = .error (.scrapeFail "TimeoutException")
      ∧ isUncaught (mainV1 envHarrisScrapeFail "1 Main St, Houston, TX 77002") = true
      ∧ isErrMsgOutcome (mainV1 envHarrisScrapeFail "1 Main St, Houston, TX 77002")
        = false :=
  ⟨rfl, rfl, rfl⟩

/-- C3 amended: blank input and an empty ATTOM result are collapsed to
generic UI messages (and, per the fetch layer, address-split failures and
non-200 statuses produce that empty ATTOM result); but when the scrape step
raises on a Harris run, the exception propagates uncaught out of the run
block instead of surfacing as a UI message. -/
theorem failure_collapse_except_scrape :
    (∀ (env : EnvV1) (addr : String), pyStrip addr = "" →
      mainV1 env addr = .ok (.errMsg "Please enter an address."))
    ∧ (∀ (env : EnvV1) (addr : String), ¬ pyStrip addr = "" →
      fetch_attom (normalizeStep env addr) env.resp = .ok [] →
      mainV1 env addr = .ok (.errMsg "ATTOM did not return data for this address."))
    ∧ (∀ (env : EnvV1) (addr : String) (attom : PyDict) (e : PyErr),
      ¬ pyStrip addr = "" →
      fetch_attom (normalizeStep env addr) env.resp = .ok attom →
      attom.isEmpty = false →
      scrapeRunsV1 attom = true →
      env.scrape = .error e →
      mainV1 env addr = .error e) := by
  refine ⟨?_, ?_, ?_⟩
  · intro env addr h
    unfold mainV1
    rw [if_pos h]
  · intro env addr h hf
    unfold mainV1
    rw [if_neg h]
    simp only [hf]
    rfl
  · intro env addr attom e h hf he hg hscrape
    unfold mainV1
    rw [if_neg h]
    simp only [hf, he, hg, hscrape, Bool.false_eq_true, if_false, if_true]

/-- Witness for C3's amended theorem at concrete inputs. -/
theorem failure_collapse_except_scrape_witness :
    mainV1 envHarrisScrapeFail "   "
        = .ok (.errMsg "Please enter an address.")
    ∧ mainV1
        { loads := loadsNone, normOut := "x",
          resp := { status := 404, body := none },
          scrape := .error (.scrapeFail "unused"), aiOut := "y" }
        "1 Main St, Houston, TX 77002"
        = .ok (.errMsg "ATTOM did not return data for this address.")
    ∧ mainV1 envHarrisScrapeFail "1 Main St, Houston, TX 77002"
        = .error (.scrapeFail "TimeoutException") :=
  ⟨failure_collapse_except_scrape.1 envHarrisScrapeFail "   " (by decide),
    failure_collapse_except_scrape.2.1
      { loads := loadsNone, normOut := "x",
        resp := { status := 404, body := none },
        scrape := .error (.scrapeFail "unused"), aiOut := "y" }
      "1 Main St, Houston, TX 77002" (by decide) (by rfl),
    failure_collapse_except_scrape.2.2 envHarrisScrapeFail
      "1 Main St, Houston, TX 77002"
      [("apn", some "0660640130020"), ("street_name", some "1 Main St"),
        ("city", some "Houston"), ("county", some "Harris"),
        ("state", some "TX"), ("zipcode", some "77002"),
        ("country", some "US"), ("latitude", some "29.7"),
        ("longitude", some "-95.3"), ("property_type", some "Residential"),
        ("property_sub_type", some "SFR"), ("owner_name", some "DOE JANE")]
      (.scrapeFail "TimeoutException")
      (by decide) (by rfl) (by rfl) (by rfl) (by rfl)⟩

end Revalix
